import Mathlib

/-!
# Verification of the "boss" inline-completion extension

A shallow embedding of the completion-request pipeline of the boss VS Code
extension (files `src/extension.ts`, `src/prompt.ts`, `src/types.ts`, and the
earlier revision of `extension.ts` kept here as `part_000`), together with
theorems settling the specification claims about it.

Strings are modelled as `List Char` (`Str`) so that the JavaScript string
surgery (trim, regex quote-stripping, `split('\n')[0]`, `startsWith`/`slice`)
becomes structurally recursive Lean code.  Documents are line-addressable
stores (`List String`), positions are zero-based `(line, character)` pairs,
and the network is modelled by passing the outcome of each `fetch` in
explicitly (`FetchResult`).
-/

/-- Characters treated as whitespace by JavaScript `String.prototype.trim`
(the ASCII ones, which are the only ones relevant to the embedded code). -/
def isJsWhitespace (c : Char) : Bool :=
  c = ' ' || c = '\t' || c = '\n' || c = '\r' || c = '\x0b' || c = '\x0c'

/-- Strings of the embedded program, modelled as lists of characters. -/
abbrev Str := List Char

/-- JavaScript `s.trim()`: drop whitespace from both ends. -/
def trim (s : Str) : Str :=
  ((s.dropWhile isJsWhitespace).reverse.dropWhile isJsWhitespace).reverse

/-- The character class `[`'"]` of the cleanup regex in `part_000` line 211:
backtick, single quote, double quote. -/
def isQuoteChar (c : Char) : Bool :=
  c = '`' || c = '\'' || c = '"'

/-- `s.replace(/^[`'"]+|[`'"]+$/g, '')`: remove the maximal run of
quote/backtick characters at each end of the string. -/
def stripQuotes (s : Str) : Str :=
  ((s.dropWhile isQuoteChar).reverse.dropWhile isQuoteChar).reverse

/-- `s.split('\n')[0]`: the text up to (excluding) the first newline. -/
def firstLine (s : Str) : Str :=
  s.takeWhile (fun c => c ≠ '\n')

/-- JavaScript `s.startsWith(pat)`. -/
def startsWith : Str → Str → Bool
  | _, [] => true
  | [], _ :: _ => false
  | c :: cs, p :: ps => c = p && startsWith cs ps

/-- Number of non-whitespace characters of a string (the quantity the spec's
"fewer than 5 non-whitespace characters" guard talks about). -/
def countNonWhitespace (s : Str) : Nat :=
  (s.filter (fun c => !isJsWhitespace c)).length

/-- The suggestion cleanup of `part_000` lines 203–218, as the code performs
it: `data.response?.trim()`; if that is falsy (empty) there is nothing to
clean; otherwise strip the quote runs, keep the first line, trim, and then
slice off `textBeforeCursor` when the result starts with it.  Returns the
final (possibly empty) string. -/
def cleanupTransform (textBeforeCursor raw : Str) : Str :=
  let t := trim raw
  if t.isEmpty then []
  else
    let s := trim (firstLine (stripQuotes t))
    if startsWith s textBeforeCursor then s.drop textBeforeCursor.length else s

/-- `part_000` lines 203–234: the value the request resolves with — the
cleaned suggestion when it is non-empty (`if (suggestion && suggestion.length
> 0)`), and no suggestion otherwise. -/
def processSuggestion (raw textBeforeCursor : Str) : Option Str :=
  let s := cleanupTransform textBeforeCursor raw
  if s.isEmpty then none else some s

/-- Modelled from the spec's words (§4.4, claim C3): the same five cleanup
stages but in the order the spec states them — trim, strip quotes, first
line, remove the already-typed text when it is an initial segment, and trim
AGAIN as the final step; empty result means no suggestion.  To be compared
with `processSuggestion`, which is translated from the code. -/
def specOrderClean (raw textBeforeCursor : Str) : Option Str :=
  let s1 := trim raw
  let s2 := stripQuotes s1
  let s3 := firstLine s2
  let s4 := if startsWith s3 textBeforeCursor then s3.drop textBeforeCursor.length else s3
  let s5 := trim s4
  if s5.isEmpty then none else some s5

/-- The cleanup stages in the order the code actually executes them: trim,
strip quotes, first line, trim, and THEN remove the already-typed text, with
no trim after the removal; empty result means no suggestion. -/
def codeOrderClean (raw textBeforeCursor : Str) : Option Str :=
  let s1 := trim raw
  let s2 := stripQuotes s1
  let s3 := firstLine s2
  let s4 := trim s3
  let s5 := if startsWith s4 textBeforeCursor then s4.drop textBeforeCursor.length else s4
  if s5.isEmpty then none else some s5

example : processSuggestion "  `) \x7b return a + b; \x7d`\n".toList "function add(a, b".toList
    = some ") \x7b return a + b; \x7d".toList := by decide

example : processSuggestion "`foo bar`".toList "foo".toList = some " bar".toList := by decide

example : specOrderClean "`foo bar`".toList "foo".toList = some "bar".toList := by decide

/-- A zero-based cursor position (`vscode.Position`). -/
structure Pos where
  line : Nat
  character : Nat
deriving DecidableEq, Repr

/-- A replacement range (`vscode.Range`): start and end positions. -/
structure Range where
  startPos : Pos
  endPos : Pos
deriving DecidableEq, Repr

/-- A text document as the provider reads it: line-addressable text plus a
language identifier (`document.lineAt(i).text`, `document.lineCount`,
`document.languageId`). -/
structure Document where
  lines : List String
  languageId : String
deriving DecidableEq, Repr

/-- `document.lineAt(i).text`.  VS Code only hands the provider in-bounds
positions; out-of-range reads default to the empty line. -/
def lineAt (d : Document) (i : Nat) : String :=
  d.lines.getD i ""

/-- `lineText.substring(0, position.character)` on the cursor's line
(`part_000` line 110). -/
def textBefore (d : Document) (p : Pos) : Str :=
  (lineAt d p.line).toList.take p.character

/-- The mutable provider fields the request protocol touches:
whether a debounce timer is currently pending, and the `lastPosition`
marker recorded when the last timer was scheduled. -/
structure ProviderState where
  timerPending : Bool
  lastPosition : Option Pos
deriving DecidableEq, Repr

/-- What the synchronous part of `provideInlineCompletionItems` did with a
request: `rejected` (guard failed, returned `undefined` untouched state),
`suppressed` (same position as `lastPosition`: cleared the pending timer and
resolved `undefined`), or `scheduled` (started a new debounce timer).  Only
`scheduled` can ever lead to a generation attempt; `rejected` and
`suppressed` both resolve with no suggestion. -/
inductive RequestAction where
  | rejected
  | suppressed
  | scheduled
deriving DecidableEq, Repr

/-- The synchronous phase of `provideInlineCompletionItems` (`part_000`
lines 108–136): the `textBeforeCursor.trim().length < 5` guard, then inside
the promise executor `clearTimeout`, the `lastPosition` comparison, and
either suppression or storing the position and scheduling the 500 ms timer.
No network call happens in this phase. -/
def provideStep (d : Document) (p : Pos) (st : ProviderState) :
    ProviderState × RequestAction :=
  if (trim (textBefore d p)).length < 5 then
    (st, RequestAction.rejected)
  else if st.lastPosition = some p then
    ({ st with timerPending := false }, RequestAction.suppressed)
  else
    ({ timerPending := true, lastPosition := some p }, RequestAction.scheduled)

/-- The events that touch the provider's mutable fields over its lifetime:
a completion request, the debounce timer firing (the callback body assigns
neither `lastPosition` nor `debounceTimer`), and `dispose` (clears the timer
only). -/
inductive ProviderEvent where
  | request (d : Document) (p : Pos)
  | timerFired
  | disposed

/-- State transition for each lifecycle event (`part_000` lines 108–136,
136–243 and 250–257). -/
def applyEvent (st : ProviderState) : ProviderEvent → ProviderState
  | ProviderEvent.request d p => (provideStep d p st).1
  | ProviderEvent.timerFired => { st with timerPending := false }
  | ProviderEvent.disposed => { st with timerPending := false }

/-- One entry of the `models` array of the tags response (`types.ts`
`OllamaTagsResponse`). -/
structure ModelEntry where
  name : String
deriving DecidableEq, Repr

/-- Body of a parsed `/api/tags` response.  The `models` field is `Option`al
because the JSON object may lack it (the code reads it with optional
chaining, `data.models?.some(...)`). -/
structure OllamaTagsResponse where
  models : Option (List ModelEntry)
deriving DecidableEq, Repr

/-- Body of a parsed `/api/generate` response (`types.ts`
`OllamaGenerateResponse`). -/
structure OllamaGenerateResponse where
  response : String
deriving DecidableEq, Repr

/-- Outcome of a `fetch`: the transport failed (fetch threw), or a response
arrived with its `ok` flag and parsed body. -/
inductive FetchResult (β : Type) where
  | transportError
  | response (ok : Bool) (body : β)
deriving DecidableEq, Repr

/-- The three availability outcomes of `checkOllamaStatus`, distinguished by
the status it displays and the boolean it returns: `Ready` (returns `true`),
`ModelNotFound` (status "model not found", returns `false`), `Offline`
(catch branch, status "offline", returns `false`). -/
inductive AvailabilityResult where
  | Ready
  | ModelNotFound
  | Offline
deriving DecidableEq, Repr

/-- `checkOllamaStatus` (`extension.ts` lines 58–84, identically `part_000`
lines 62–88), as a function of the configured model name and the outcome of
the `GET /api/tags` fetch: a non-ok response throws into the catch branch
(`Offline`), otherwise `modelExists = data.models?.some(m => m.name ===
model)` decides between `Ready` and `ModelNotFound`. -/
def checkOllamaStatus (model : String) (r : FetchResult OllamaTagsResponse) :
    AvailabilityResult :=
  match r with
  | FetchResult.transportError => AvailabilityResult.Offline
  | FetchResult.response ok body =>
    if !ok then AvailabilityResult.Offline
    else
      let modelExists :=
        match body.models with
        | none => false
        | some ms => ms.any (fun m => m.name = model)
      if !modelExists then AvailabilityResult.ModelNotFound
      else AvailabilityResult.Ready

/-- The two HTTP endpoints the provider can call. -/
inductive NetworkCall where
  | tags
  | generate
deriving DecidableEq, Repr

/-- The environment a fired timer callback runs against: the cancellation
token's state and the outcomes the network would deliver for the two
fetches. -/
structure RequestEnv where
  cancelled : Bool
  tagsResult : FetchResult OllamaTagsResponse
  genResult : FetchResult OllamaGenerateResponse

/-- The debounce-timer callback of `part_000` lines 136–243, returning the
list of endpoints actually called (in order) and the resolved value: `none`
for "no suggestion", or the cleaned suggestion with its replacement range
`Range(position.line, position.character, position.line,
position.character)`.  The cancellation token is checked first; then
`checkOllamaStatus` performs the tags call and aborts unless `Ready`; a
failed or non-ok generate fetch throws into the catch branch, which resolves
`undefined`. -/
def timerCallback (model : String) (d : Document) (p : Pos)
    (env : RequestEnv) : List NetworkCall × Option (Str × Range) :=
  if env.cancelled then ([], none)
  else if checkOllamaStatus model env.tagsResult ≠ AvailabilityResult.Ready then
    ([NetworkCall.tags], none)
  else
    match env.genResult with
    | FetchResult.transportError => ([NetworkCall.tags, NetworkCall.generate], none)
    | FetchResult.response ok body =>
      if !ok then ([NetworkCall.tags, NetworkCall.generate], none)
      else
        match processSuggestion body.response.toList (textBefore d p) with
        | none => ([NetworkCall.tags, NetworkCall.generate], none)
        | some s =>
          ([NetworkCall.tags, NetworkCall.generate], some (s, ⟨p, p⟩))

/-- The context handed to the prompt builder (`spec` §4.1 `ContextWindow`,
already joined by newline as the code joins it). -/
structure ContextWindow where
  precedingText : String
  currentLine : String
  followingText : String
deriving DecidableEq, Repr

/-- Context extraction of `extension.ts` lines 150–176: `startLine =
Math.max(0, position.line - 10)` (truncated `Nat` subtraction), `endLine =
Math.min(document.lineCount - 1, position.line + 10)`; the first loop pushes
`document.lineAt(i).text` for `i = startLine; i < position.line`, the second
for `i = position.line + 1; i <= endLine`; both joined with `'\n'`; the
current line is `lineText`, taken whole and not split at the cursor. -/
def extractContext (d : Document) (p : Pos) : ContextWindow :=
  let lineText := lineAt d p.line
  let startLine := p.line - 10
  let endLine := min (d.lines.length - 1) (p.line + 10)
  let contextLines := (List.range' startLine (p.line - startLine)).map (lineAt d)
  let precedingText := String.intercalate "\n" contextLines
  let followingLines := (List.range' (p.line + 1) (endLine - p.line)).map (lineAt d)
  let followingText := String.intercalate "\n" followingLines
  ⟨precedingText, lineText, followingText⟩

/-- `generateCompletionPrompt` from `prompt.ts`: the fixed instruction
template around the language id and the three context blocks. -/
def generateCompletionPrompt (languageId precedingText currentLine
    followingText : String) : String :=
  "[INST]You are an expert code completion assistant. Given this " ++
    languageId ++ " code:\n\n" ++ precedingText ++ "\n" ++ currentLine ++
    "\n" ++ followingText ++
    "\n\nComplete this line of code to the best of your ability. " ++
    "Output a complete syntatically correct line of code.\n" ++
    "Only output the completion, no explanations.[/INST]"

/-- The prompt `extension.ts` sends for a request, via the extracted
context. -/
def buildPromptAt (d : Document) (p : Pos) : String :=
  let cw := extractContext d p
  generateCompletionPrompt d.languageId cw.precedingText cw.currentLine
    cw.followingText

/-- The two text blocks the `part_000` revision interpolates into its
inline prompt (`part_000` lines 155–171): `precedingText` collected by the
loop over `[max(0, line-10), line)` and joined with `'\n'`, and
`textBeforeCursor` — the current line SPLIT at the cursor
(`lineText.substring(0, position.character)`).  That revision reads no
following lines at all. -/
def part000PromptContext (d : Document) (p : Pos) : String × String :=
  let startLine := p.line - 10
  let contextLines := (List.range' startLine (p.line - startLine)).map (lineAt d)
  let precedingText := String.intercalate "\n" contextLines
  (precedingText, String.mk (textBefore d p))

/-- The inline prompt template of `part_000` lines 166–171 around the two
context blocks. -/
def buildPromptPart000 (d : Document) (p : Pos) : String :=
  let ctx := part000PromptContext d p
  "[INST]You are a code completion assistant. Given this " ++ d.languageId ++
    " code:\n\n" ++ ctx.1 ++ "\n" ++ ctx.2 ++
    "\n\nComplete this line of code. Only output the completion, no explanations.[/INST]"

/-- The resolution step of `extension.ts` lines 214–223: the raw response is
used uncleaned; when it is truthy (non-empty) the item carries the range
`Range(position.line, 0, position.line, suggestion.length)` — starting at
column 0, ending at column `suggestion.length`. -/
def resolveCompletionExt (p : Pos) (suggestion : String) :
    Option (String × Range) :=
  if suggestion.isEmpty then none
  else some (suggestion, ⟨⟨p.line, 0⟩, ⟨p.line, suggestion.length⟩⟩)

/-- A successfully resolved suggestion is never the empty string: the code
only resolves an item under `if (suggestion && suggestion.length > 0)`. -/
theorem processSuggestion_ne_nil (raw textBeforeCursor s : Str)
    (h : processSuggestion raw textBeforeCursor = some s) : s ≠ [] := by
  dsimp only [processSuggestion] at h
  split at h
  · exact absurd h (by simp)
  · rename_i hne
    injection h with h'
    subst h'
    simpa using hne

/-- C1: a request whose cursor position equals the `lastPosition` recorded
when the previous timer was scheduled resolves with no suggestion (it is
rejected by the length guard or suppressed by the position comparison) and
never starts a new timer: the timer-pending flag can only stay or go out,
so at most one generation attempt is ever scheduled for an unchanged
position. -/
theorem provideStep_suppresses_repeat (d : Document) (p : Pos)
    (st : ProviderState) (h : st.lastPosition = some p) :
    ((provideStep d p st).2 = RequestAction.rejected ∨
      (provideStep d p st).2 = RequestAction.suppressed) ∧
    ((provideStep d p st).1.timerPending = true → st.timerPending = true) := by
  unfold provideStep
  rw [h]
  split
  · exact ⟨Or.inl rfl, fun hh => hh⟩
  · simp

/-- Witness for C1 at a concrete request: line "abcdef", cursor (0,6),
pending timer scheduled at the same position. -/
theorem provideStep_suppresses_repeat_witness :
    (((provideStep ⟨["abcdef"], "ts"⟩ ⟨0, 6⟩ ⟨true, some ⟨0, 6⟩⟩).2 =
        RequestAction.rejected ∨
      (provideStep ⟨["abcdef"], "ts"⟩ ⟨0, 6⟩ ⟨true, some ⟨0, 6⟩⟩).2 =
        RequestAction.suppressed) ∧
    ((provideStep ⟨["abcdef"], "ts"⟩ ⟨0, 6⟩ ⟨true, some ⟨0, 6⟩⟩).1.timerPending
        = true → true = true)) :=
  provideStep_suppresses_repeat ⟨["abcdef"], "ts"⟩ ⟨0, 6⟩
    ⟨true, some ⟨0, 6⟩⟩ rfl

/-- C2 counterexample: with line "a   b" and the cursor after it, the text
before the cursor has only 2 non-whitespace characters — fewer than 5 — yet
the request is NOT rejected: the code's guard tests
`textBeforeCursor.trim().length` (which is 5, internal spaces included), so
a debounce timer IS scheduled, contradicting the claim. -/
theorem lengthGuard_cex :
    countNonWhitespace (textBefore ⟨["a   b"], "ts"⟩ ⟨0, 5⟩) < 5 ∧
    (provideStep ⟨["a   b"], "ts"⟩ ⟨0, 5⟩ ⟨false, none⟩).2 =
      RequestAction.scheduled ∧
    (provideStep ⟨["a   b"], "ts"⟩ ⟨0, 5⟩ ⟨false, none⟩).1.timerPending
      = true := by
  decide

/-- C2 amended: when the text before the cursor, after trimming leading and
trailing whitespace, is shorter than 5 characters, the request returns no
suggestion immediately — the state is untouched, so no timer is scheduled
(and this phase performs no network call by construction). -/
theorem lengthGuard_rejects (d : Document) (p : Pos) (st : ProviderState)
    (h : (trim (textBefore d p)).length < 5) :
    provideStep d p st = (st, RequestAction.rejected) := by
  unfold provideStep
  rw [if_pos h]

/-- Witness for the amended C2 at line "ab", cursor (0,2). -/
theorem lengthGuard_rejects_witness :
    provideStep ⟨["ab"], "ts"⟩ ⟨0, 2⟩ ⟨false, none⟩ =
      (⟨false, none⟩, RequestAction.rejected) :=
  lengthGuard_rejects ⟨["ab"], "ts"⟩ ⟨0, 2⟩ ⟨false, none⟩ (by decide)

/-- C6: whenever the availability check does not come out `Ready`, the timer
callback never issues the `/api/generate` call and the request resolves with
no suggestion. -/
theorem no_generate_when_not_ready (model : String) (d : Document) (p : Pos)
    (env : RequestEnv)
    (h : checkOllamaStatus model env.tagsResult ≠ AvailabilityResult.Ready) :
    NetworkCall.generate ∉ (timerCallback model d p env).1 ∧
    (timerCallback model d p env).2 = none := by
  unfold timerCallback
  split
  · simp
  · exact ⟨by simp, rfl⟩

/-- Witness for C6: a transport failure of the tags fetch. -/
theorem no_generate_when_not_ready_witness :
    NetworkCall.generate ∉
      (timerCallback "m" ⟨[], ""⟩ ⟨0, 0⟩
        ⟨false, FetchResult.transportError, FetchResult.transportError⟩).1 ∧
    (timerCallback "m" ⟨[], ""⟩ ⟨0, 0⟩
      ⟨false, FetchResult.transportError, FetchResult.transportError⟩).2
      = none :=
  no_generate_when_not_ready "m" ⟨[], ""⟩ ⟨0, 0⟩
    ⟨false, FetchResult.transportError, FetchResult.transportError⟩
    (by decide)

/-- C8 counterexample: in `extension.ts` lines 214–221 a request resolving
with the non-empty suggestion "abc" at cursor (5,7) carries the replacement
range (5,0)–(5,3) — the range spans from column 0 to the suggestion's
length, and is neither zero-length nor anchored at the cursor position. -/
theorem completionRange_cex :
    resolveCompletionExt ⟨5, 7⟩ "abc" =
      some ("abc", ⟨⟨5, 0⟩, ⟨5, 3⟩⟩) ∧
    (⟨⟨5, 0⟩, ⟨5, 3⟩⟩ : Range) ≠ ⟨⟨5, 7⟩, ⟨5, 7⟩⟩ := by
  decide

/-- C8 amended: in the `part_000` revision the claim holds — whenever the
timer callback resolves with a cleaned suggestion, that suggestion is
non-empty and its replacement range is the zero-length range whose start and
end both equal the cursor position (the `extension.ts` revision instead uses
the range from column 0 to the raw suggestion's length). -/
theorem resolved_range_zero_at_cursor (model : String) (d : Document)
    (p : Pos) (env : RequestEnv) (s : Str) (r : Range)
    (h : (timerCallback model d p env).2 = some (s, r)) :
    s ≠ [] ∧ r = ⟨p, p⟩ := by
  unfold timerCallback at h
  split at h
  · simp at h
  · split at h
    · simp at h
    · split at h
      · simp at h
      · split at h
        · simp at h
        · split at h
          · simp at h
          · rename_i s' hps
            simp only [Prod.snd, Option.some.injEq, Prod.mk.injEq] at h
            obtain ⟨hs, hr⟩ := h
            subst hs
            subst hr
            exact ⟨processSuggestion_ne_nil _ _ _ hps, rfl⟩

/-- Witness for the amended C8: a full successful generation at cursor
(0,6). -/
theorem resolved_range_zero_at_cursor_witness :
    ("xyz".toList ≠ ([] : Str)) ∧
    (⟨⟨0, 6⟩, ⟨0, 6⟩⟩ : Range) = ⟨⟨0, 6⟩, ⟨0, 6⟩⟩ :=
  resolved_range_zero_at_cursor "m" ⟨["abcdef"], "ts"⟩ ⟨0, 6⟩
    ⟨false, FetchResult.response true ⟨some [⟨"m"⟩]⟩,
      FetchResult.response true ⟨"xyz"⟩⟩
    "xyz".toList ⟨⟨0, 6⟩, ⟨0, 6⟩⟩ (by decide)

/-- C9: a successful tags response whose body lacks the `models` field is
classified as model-not-found (the optional chaining
`data.models?.some(...)` yields a falsy `modelExists`), not as an exception
and not as `Offline`. -/
theorem checkOllamaStatus_missing_models (model : String) :
    checkOllamaStatus model (FetchResult.response true ⟨none⟩) =
      AvailabilityResult.ModelNotFound := rfl

/-- C10: the `lastPosition` marker is set by every scheduling request, no
lifecycle event (request, timer fire, dispose) ever clears it back to
`none`, and a request arriving at the recorded position is suppressed even
when no timer is pending, so a repeat request after a completed generation
never schedules a new one. -/
theorem lastPosition_persistent :
    (∀ (d : Document) (p : Pos) (st : ProviderState),
      (provideStep d p st).2 = RequestAction.scheduled →
      (provideStep d p st).1.lastPosition = some p) ∧
    (∀ (st : ProviderState) (e : ProviderEvent),
      st.lastPosition ≠ none → (applyEvent st e).lastPosition ≠ none) ∧
    (∀ (d : Document) (p : Pos) (st : ProviderState),
      st.timerPending = false → st.lastPosition = some p →
      (provideStep d p st).2 ≠ RequestAction.scheduled) := by
  refine ⟨?_, ?_, ?_⟩
  · intro d p st h
    unfold provideStep at h ⊢
    by_cases h1 : (trim (textBefore d p)).length < 5
    · rw [if_pos h1] at h
      exact absurd h (by simp)
    · rw [if_neg h1] at h ⊢
      by_cases h2 : st.lastPosition = some p
      · rw [if_pos h2] at h
        exact absurd h (by simp)
      · rw [if_neg h2]
  · intro st e h
    cases e with
    | request d p =>
      show ((provideStep d p st).1).lastPosition ≠ none
      unfold provideStep
      by_cases h1 : (trim (textBefore d p)).length < 5
      · rw [if_pos h1]
        exact h
      · rw [if_neg h1]
        by_cases h2 : st.lastPosition = some p
        · rw [if_pos h2]
          exact h
        · rw [if_neg h2]
          simp
    | timerFired => exact h
    | disposed => exact h
  · intro d p st _ hlp
    unfold provideStep
    rw [hlp]
    by_cases h1 : (trim (textBefore d p)).length < 5
    · rw [if_pos h1]
      simp
    · rw [if_neg h1]
      simp

/-- Witness for C10: with no pending timer and `lastPosition` = (0,6), a
request at (0,6) on line "abcdef" is not scheduled. -/
theorem lastPosition_persistent_witness :
    (provideStep ⟨["abcdef"], "ts"⟩ ⟨0, 6⟩ ⟨false, some ⟨0, 6⟩⟩).2 ≠
      RequestAction.scheduled :=
  lastPosition_persistent.2.2 ⟨["abcdef"], "ts"⟩ ⟨0, 6⟩
    ⟨false, some ⟨0, 6⟩⟩ rfl rfl

/-- The early-exit cleanup of the code equals the straight four-stage string
pipeline: all stages map the empty string to itself, so the `if
(suggestion)` short-circuit is immaterial. -/
theorem cleanupTransform_eq_stages (textBeforeCursor raw : Str) :
    cleanupTransform textBeforeCursor raw =
      (let s4 := trim (firstLine (stripQuotes (trim raw)))
       if startsWith s4 textBeforeCursor then s4.drop textBeforeCursor.length
       else s4) := by
  dsimp only [cleanupTransform]
  by_cases h : (trim raw).isEmpty
  · have he : trim raw = [] := by simpa using h
    rw [he]
    rw [if_pos (by simp)]
    cases textBeforeCursor with
    | nil => simp [stripQuotes, firstLine, trim, startsWith]
    | cons c cs => simp [stripQuotes, firstLine, trim, startsWith]
  · rw [if_neg h]

/-- C3 counterexample: for raw output "`foo bar`" with "foo" already before
the cursor, the code produces " bar" (it trims before removing the typed
text and never after), while the claimed order — prefix removal before the
final trim — produces "bar". -/
theorem cleanupOrder_cex :
    processSuggestion "`foo bar`".toList "foo".toList =
      some " bar".toList ∧
    specOrderClean "`foo bar`".toList "foo".toList = some "bar".toList ∧
    processSuggestion "`foo bar`".toList "foo".toList ≠
      specOrderClean "`foo bar`".toList "foo".toList := by
  decide

/-- C3 amended: the cleanup performs, in this order: trim surrounding
whitespace; strip leading and trailing quote/backtick runs; keep the text up
to the first newline; trim AGAIN; and only then, if the result starts with
the text before the cursor, remove that prefix (with no further trim); if
the final result is empty the request resolves to no suggestion. -/
theorem cleanup_stage_order (raw textBeforeCursor : Str) :
    processSuggestion raw textBeforeCursor =
      codeOrderClean raw textBeforeCursor := by
  dsimp only [processSuggestion, codeOrderClean]
  rw [cleanupTransform_eq_stages]

/-- C4 counterexample: cleaning "`foo bar`" against typed text "foo" yields
" bar"; cleaning that result again yields "bar" — the second application
differs from the first, so the cleanup transform is not idempotent. -/
theorem cleanup_idem_cex :
    cleanupTransform "foo".toList "`foo bar`".toList = " bar".toList ∧
    cleanupTransform "foo".toList
        (cleanupTransform "foo".toList "`foo bar`".toList) =
      "bar".toList ∧
    cleanupTransform "foo".toList
        (cleanupTransform "foo".toList "`foo bar`".toList) ≠
      cleanupTransform "foo".toList "`foo bar`".toList := by
  decide

/-- C4 amended: the cleanup is idempotent exactly on already-clean outputs —
whenever the first application's result is trimmed, carries no leading or
trailing quote/backtick run, is single-line, and does not start with the
text before the cursor, a second application returns it unchanged.  (The
counterexample shows this fails in general: prefix removal can re-expose
leading whitespace.) -/
theorem cleanup_idem_on_clean (textBeforeCursor raw : Str)
    (ht : trim (cleanupTransform textBeforeCursor raw) =
      cleanupTransform textBeforeCursor raw)
    (hq : stripQuotes (cleanupTransform textBeforeCursor raw) =
      cleanupTransform textBeforeCursor raw)
    (hn : firstLine (cleanupTransform textBeforeCursor raw) =
      cleanupTransform textBeforeCursor raw)
    (hp : startsWith (cleanupTransform textBeforeCursor raw)
      textBeforeCursor = false) :
    cleanupTransform textBeforeCursor
        (cleanupTransform textBeforeCursor raw) =
      cleanupTransform textBeforeCursor raw := by
  set s := cleanupTransform textBeforeCursor raw with hs
  by_cases he : s.isEmpty
  · have h0 : s = [] := by simpa using he
    rw [h0]
    rfl
  · dsimp only [cleanupTransform]
    rw [ht, if_neg he, hq, hn, ht, hp]
    simp

/-- Witness for the amended C4: raw " hello() " against typed text "zz"
cleans to "hello()", on which the cleanup is the identity. -/
theorem cleanup_idem_on_clean_witness :
    cleanupTransform "zz".toList
        (cleanupTransform "zz".toList " hello() ".toList) =
      cleanupTransform "zz".toList " hello() ".toList :=
  cleanup_idem_on_clean "zz".toList " hello() ".toList (by decide)
    (by decide) (by decide) (by decide)

/-- C5: over well-formed tags responses, the availability check yields
`Ready` exactly when the response is ok and the configured model name occurs
in the model list, `ModelNotFound` when the response is ok but the name is
absent, and `Offline` when the fetch fails or the response is non-ok. -/
theorem checkOllamaStatus_spec (model : String) (ok : Bool)
    (ms : List ModelEntry) :
    (checkOllamaStatus model (FetchResult.response ok ⟨some ms⟩) =
        AvailabilityResult.Ready ↔
      ok = true ∧ model ∈ ms.map ModelEntry.name) ∧
    (checkOllamaStatus model (FetchResult.response ok ⟨some ms⟩) =
        AvailabilityResult.ModelNotFound ↔
      ok = true ∧ model ∉ ms.map ModelEntry.name) ∧
    checkOllamaStatus model FetchResult.transportError =
      AvailabilityResult.Offline ∧
    checkOllamaStatus model (FetchResult.response false ⟨some ms⟩) =
      AvailabilityResult.Offline := by
  have key : checkOllamaStatus model (FetchResult.response true ⟨some ms⟩) =
      if (ms.any fun m => m.name = model) = true then AvailabilityResult.Ready
      else AvailabilityResult.ModelNotFound := by
    show (if !(ms.any fun m => m.name = model) then
        AvailabilityResult.ModelNotFound else AvailabilityResult.Ready) = _
    cases ms.any fun m => m.name = model <;> simp
  have hmem : ((ms.any fun m => m.name = model) = true) ↔
      model ∈ ms.map ModelEntry.name := by
    simp [List.any_eq_true, List.mem_map]
  have hoff : checkOllamaStatus model (FetchResult.response false ⟨some ms⟩) =
      AvailabilityResult.Offline := rfl
  cases ok with
  | false =>
    rw [hoff]
    refine ⟨?_, ?_, rfl, rfl⟩ <;> simp
  | true =>
    rw [key]
    cases hA : ms.any fun m => m.name = model with
    | true =>
      have hm := hmem.mp hA
      simp [hm]
      exact ⟨rfl, hoff⟩
    | false =>
      have hm : ¬ model ∈ ms.map ModelEntry.name := by
        intro hc
        rw [hmem.mpr hc] at hA
        cases hA
      simp [hm]
      exact ⟨rfl, hoff⟩

/-- Lines read one index at a time over `[a, a+n)` with the document's
line-reader equal the contiguous slice of the line store, as long as the
range stays in bounds. -/
theorem range'_map_getD (n : Nat) : ∀ (a : Nat) (l : List String),
    a + n ≤ l.length →
    (List.range' a n).map (fun i => l.getD i "") = (l.drop a).take n := by
  induction n with
  | zero => intro a l _; simp
  | succ k ih =>
    intro a l h
    have ha : a < l.length := by omega
    rw [List.range'_succ, List.map_cons, List.getD_eq_getElem l "" ha,
      List.drop_eq_getElem_cons ha, List.take_succ_cons]
    congr 1
    exact ih (a + 1) l (by omega)

/-- C7 counterexample: in the `part_000` revision (lines 155–171), for the
document ["aaa", "bbbbb", "ccc"] with the cursor at (1,2), the context
supplied to the prompt is the pair ("aaa", "bb"): the current-line block is
"bb" — the line split at the cursor, not the verbatim line "bbbbb" — and the
full prompt string shows no following line ("ccc" never read), refuting the
claim for that revision. -/
theorem contextWindow_cex :
    part000PromptContext ⟨["aaa", "bbbbb", "ccc"], "ts"⟩ ⟨1, 2⟩ =
      ("aaa", "bb") ∧
    ("bb" : String) ≠ lineAt ⟨["aaa", "bbbbb", "ccc"], "ts"⟩ 1 ∧
    buildPromptPart000 ⟨["aaa", "bbbbb", "ccc"], "ts"⟩ ⟨1, 2⟩ =
      "[INST]You are a code completion assistant. Given this ts code:\n\naaa\nbb\n\nComplete this line of code. Only output the completion, no explanations.[/INST]" := by
  decide

/-- C7 amended: for an in-bounds cursor, in the `extension.ts` revision the
context handed to the prompt builder is exactly: the lines with indices in
[line−10 (clamped at 0), line) joined by newline as preceding text, the
lines in (line, min(lastLine, line+10)] joined by newline as following
text, and the current line verbatim — the cursor's character is not
consulted; the `part_000` revision instead supplies only the same preceding
window together with the current line split at the cursor, and no following
text. -/
theorem contextWindow_spec (d : Document) (p : Pos)
    (h : p.line < d.lines.length) :
    extractContext d p =
      ⟨String.intercalate "\n"
          ((d.lines.drop (p.line - 10)).take (p.line - (p.line - 10))),
        lineAt d p.line,
        String.intercalate "\n"
          ((d.lines.drop (p.line + 1)).take
            (min (d.lines.length - 1) (p.line + 10) - p.line))⟩ ∧
    part000PromptContext d p =
      (String.intercalate "\n"
          ((d.lines.drop (p.line - 10)).take (p.line - (p.line - 10))),
        String.mk ((lineAt d p.line).toList.take p.character)) := by
  have hl : lineAt d = fun i => d.lines.getD i "" := rfl
  have hpre := range'_map_getD (p.line - (p.line - 10)) (p.line - 10)
    d.lines (by omega)
  have hfol := range'_map_getD
    (min (d.lines.length - 1) (p.line + 10) - p.line) (p.line + 1)
    d.lines (by omega)
  constructor
  · unfold extractContext
    dsimp only
    rw [hl, hpre, hfol]
  · unfold part000PromptContext
    dsimp only
    rw [hl, hpre]
    rfl

/-- Witness for the amended C7: a three-line document with the cursor on
line 1. -/
theorem contextWindow_spec_witness :
    (extractContext ⟨["l0", "l1", "l2"], "ts"⟩ ⟨1, 2⟩ =
      ⟨String.intercalate "\n"
          ((["l0", "l1", "l2"].drop (1 - 10)).take (1 - (1 - 10))),
        lineAt ⟨["l0", "l1", "l2"], "ts"⟩ 1,
        String.intercalate "\n"
          ((["l0", "l1", "l2"].drop (1 + 1)).take
            (min (["l0", "l1", "l2"].length - 1) (1 + 10) - 1))⟩) ∧
    part000PromptContext ⟨["l0", "l1", "l2"], "ts"⟩ ⟨1, 2⟩ =
      (String.intercalate "\n"
          ((["l0", "l1", "l2"].drop (1 - 10)).take (1 - (1 - 10))),
        String.mk ((lineAt ⟨["l0", "l1", "l2"], "ts"⟩ 1).toList.take 2)) :=
  contextWindow_spec ⟨["l0", "l1", "l2"], "ts"⟩ ⟨1, 2⟩ (by decide)
